import Mathlib

/-!
Shallow embedding of the IL2-SRS experiment client
(`src/srsServerHandler.py`, `src/audio.py`).

Byte strings are modelled as `List Nat` (each entry one byte, values
0..255); machine integers are `Nat`/`Int` with explicit `% 2 ^ w` where
overflow matters.  Stateful methods of `SrsServerClient` become explicit
state-passing functions returning the new state together with a list of
observable effects (socket opens/closes, TCP writes, UDP sends).
External library calls (socket operations, `json.loads`) are modelled by
outcome parameters: the embedding is faithful to the Python control flow
for every possible outcome of the external call.
-/

/-- UTF-8 encoding of one character, as a list of byte values
(mirrors Python's `str.encode('utf-8')` per character). -/
def utf8Bytes (c : Char) : List Nat :=
  let n := c.toNat
  if n < 128 then [n]
  else if n < 2048 then [192 + n / 64, 128 + n % 64]
  else if n < 65536 then [224 + n / 4096, 128 + n / 64 % 64, 128 + n % 64]
  else [240 + n / 262144, 128 + n / 4096 % 64, 128 + n / 64 % 64, 128 + n % 64]

/-- UTF-8 encoding of a string as a byte list (Python `s.encode('utf-8')`). -/
def strToUTF8 (s : String) : List Nat :=
  s.data.foldr (fun c acc => utf8Bytes c ++ acc) []

/-- Little-endian 8-byte encoding of an unsigned 64-bit value
(the byte list produced by Python's `struct.pack('<Q', n)` for `n < 2^64`). -/
def pack64le (n : Nat) : List Nat :=
  [n % 256, n / 256 % 256, n / 65536 % 256, n / 16777216 % 256,
   n / 4294967296 % 256, n / 1099511627776 % 256,
   n / 281474976710656 % 256, n / 72057594037927936 % 256]

/-- Python's `struct.pack('<Q', n)`: raises `struct.error` (modelled as
`none`) when the value does not fit in 64 bits. -/
def structPackQ (n : Nat) : Option (List Nat) :=
  if n < 18446744073709551616 then some (pack64le n) else none

/-- Decoding of the little-endian 8-byte header (server-side convention,
used to express the wire-format round trip). -/
def unpack64le : List Nat → Nat
  | [b0, b1, b2, b3, b4, b5, b6, b7] =>
      b0 + 256 * (b1 + 256 * (b2 + 256 * (b3 + 256 * (b4 + 256 * (b5 + 256 * (b6 + 256 * b7))))))
  | _ => 0

/-- Splitting a byte list at the first NUL byte, dropping the NUL
(server-side recovery of the NUL-terminated GUID field). -/
def takeUntilNul : List Nat → List Nat × List Nat
  | [] => ([], [])
  | b :: rest =>
      if b = 0 then ([], rest)
      else
        let (pre, post) := takeUntilNul rest
        (b :: pre, post)

/-- Observable side effects of client operations. -/
inductive Effect where
  | sockOpen (handle : Nat)
  | sockClose (handle : Nat)
  | tcpWrite (bytes : List Nat)
  | udpSend (bytes : List Nat)
deriving Repr, DecidableEq

/-- Fields of `SrsServerClient` that the embedded operations read or
write.  Socket objects are modelled by handles (`Option Nat`);
`next_handle` models the allocation of fresh socket objects by
`socket.socket(...)`. -/
structure SrsState where
  server_address : String
  server_port : Nat
  pilot_name : String
  client_guid : String
  tcp_sock : Option Nat
  udp_sock : Option Nat
  voice_packet_id : Nat
  is_running : Bool
  next_handle : Nat
deriving Repr, DecidableEq

/-- Embedding of `SrsServerClient.__init__`.  The GUID produced by
`uuid.uuid4()` is an external input, passed as a parameter; it is
generated exactly once, at construction. -/
def SrsState.init (server_address : String) (server_port : Nat)
    (pilot_name : String) (guid : String) : SrsState :=
  { server_address := server_address
    server_port := server_port
    pilot_name := if pilot_name = "" then "LinuxPilot" else pilot_name
    client_guid := guid
    tcp_sock := none
    udp_sock := none
    voice_packet_id := 0
    is_running := false
    next_handle := 0 }

/-- Embedding of `SrsServerClient.disconnect`: when not running it
returns at once (closing nothing); otherwise it clears the running flag
and closes whichever sockets are set. -/
def disconnect (s : SrsState) : SrsState × List Effect :=
  if !s.is_running then (s, [])
  else
    ({ s with is_running := false, tcp_sock := none, udp_sock := none },
      (match s.tcp_sock with
        | some h => [Effect.sockClose h]
        | none => []) ++
      (match s.udp_sock with
        | some h => [Effect.sockClose h]
        | none => []))

/-- JSON values, mirroring the Python dicts built by the client.  Object
fields keep insertion order, as Python dicts do.  `float` represents a
simple decimal literal `whole.frac` (the source only uses `1.0`). -/
inductive Json where
  | null
  | bool (b : Bool)
  | int (n : Int)
  | float (whole : Int) (frac : Nat)
  | str (s : String)
  | arr (elems : List Json)
  | obj (fields : List (String × Json))
deriving Repr

/-- Lowercase hexadecimal digit, as used by `json.dumps` escapes. -/
def hexDigit (n : Nat) : Char :=
  if n < 10 then Char.ofNat (48 + n) else Char.ofNat (87 + n)

/-- Four lowercase hex digits. -/
def hex4 (n : Nat) : String :=
  String.mk [hexDigit (n / 4096 % 16), hexDigit (n / 256 % 16),
             hexDigit (n / 16 % 16), hexDigit (n % 16)]

/-- Escaping of one character inside a JSON string, following
`json.dumps` with its default `ensure_ascii=True`. -/
def escapeChar (c : Char) : String :=
  if c = '"' then "\\\""
  else if c = '\\' then "\\\\"
  else if c = Char.ofNat 8 then "\\b"
  else if c = Char.ofNat 9 then "\\t"
  else if c = Char.ofNat 10 then "\\n"
  else if c = Char.ofNat 12 then "\\f"
  else if c = Char.ofNat 13 then "\\r"
  else if 32 ≤ c.toNat ∧ c.toNat ≤ 126 then String.singleton c
  else if c.toNat < 65536 then "\\u" ++ hex4 c.toNat
  else
    let v := c.toNat - 65536
    "\\u" ++ hex4 (55296 + v / 1024) ++ "\\u" ++ hex4 (56320 + v % 1024)

/-- JSON string literal with quotes and escapes. -/
def quoteStr (s : String) : String :=
  "\"" ++ String.join (s.data.map escapeChar) ++ "\""

mutual

/-- Serialization mirroring Python's `json.dumps` with its default
separators `', '` and `': '`. -/
def dumps : Json → String
  | Json.null => "null"
  | Json.bool true => "true"
  | Json.bool false => "false"
  | Json.int n => toString n
  | Json.float w f => toString w ++ "." ++ toString f
  | Json.str s => quoteStr s
  | Json.arr xs => "[" ++ dumpsArr xs ++ "]"
  | Json.obj kvs => "\x7b" ++ dumpsObj kvs ++ "\x7d"

/-- Comma-separated serialization of array elements. -/
def dumpsArr : List Json → String
  | [] => ""
  | [x] => dumps x
  | x :: y :: xs => dumps x ++ ", " ++ dumpsArr (y :: xs)

/-- Comma-separated serialization of object fields. -/
def dumpsObj : List (String × Json) → String
  | [] => ""
  | [(k, v)] => quoteStr k ++ ": " ++ dumps v
  | (k, v) :: p :: xs => quoteStr k ++ ": " ++ dumps v ++ ", " ++ dumpsObj (p :: xs)

end

/-- Field lookup in a JSON object (first match, like reading a Python
dict key). -/
def lookupField : List (String × Json) → String → Option Json
  | [], _ => none
  | (k, v) :: rest, key => if k = key then some v else lookupField rest key

/-- Lookup of a key on a JSON value; `none` on non-objects. -/
def jGet (j : Json) (key : String) : Option Json :=
  match j with
  | Json.obj fields => lookupField fields key
  | _ => none

/-- The message dict built by `SrsServerClient._send_json_message`:
MsgType, ServerType, Version and the Client sub-record, with
`client_data` merged into Client (the only merged key, `GameState`, is
always new, so Python's `dict.update` appends it). -/
def buildJsonMessage (s : SrsState) (msg_type : String)
    (client_data : List (String × Json)) : Json :=
  Json.obj
    [("MsgType", Json.str msg_type),
     ("ServerType", Json.str "IL2-SRS"),
     ("Version", Json.str "1.0.0.0"),
     ("Client", Json.obj
       ([("ClientGuid", Json.str s.client_guid),
         ("Name", Json.str s.pilot_name),
         ("Coalition", Json.int 0),
         ("Seat", Json.int 0)] ++ client_data))]

/-- Embedding of `SrsServerClient._send_json_message`.  It mutates no
field; its only effect is at most one `sendall` of the UTF-8 encoded
JSON line.  `sendOk` is the outcome of the external `sendall`; a raise
is `Except.error`.  Note the PING early return precedes any send. -/
def send_json_message (s : SrsState) (msg_type : String)
    (client_data : List (String × Json)) (sendOk : Bool) :
    Except Unit (List Effect) :=
  if !s.is_running || s.tcp_sock.isNone then Except.ok []
  else if msg_type = "PING" then Except.ok []
  else if sendOk then
    Except.ok [Effect.tcpWrite (strToUTF8 (dumps (buildJsonMessage s msg_type client_data) ++ "\n"))]
  else Except.error ()

/-- Outcome of the external socket calls inside `connect`'s `try` block:
the TCP `connect` may raise, the UDP `bind` may raise, or all external
calls succeed. -/
inductive ConnectOutcome where
  | tcpConnectFail
  | udpBindFail
  | success
deriving Repr, DecidableEq

/-- Embedding of `SrsServerClient.connect`.  If already running it
returns at once.  Otherwise it creates the TCP socket (assigning
`self.tcp_sock`), connects, creates and binds the UDP socket (assigning
`self.udp_sock`), performs the SYNC handshake, and only then sets
`is_running` — so the handshake's `_send_json_message` still sees
`is_running == False`.  Any socket error is caught and answered by a
call to `disconnect()`. -/
def connect (s : SrsState) (oc : ConnectOutcome) : SrsState × List Effect :=
  if s.is_running then (s, [])
  else
    let h1 := s.next_handle
    let s1 := { s with tcp_sock := some h1, next_handle := h1 + 1 }
    match oc with
    | ConnectOutcome.tcpConnectFail =>
        let (s2, es) := disconnect s1
        (s2, Effect.sockOpen h1 :: es)
    | ConnectOutcome.udpBindFail =>
        let h2 := s1.next_handle
        let s2 := { s1 with udp_sock := some h2, next_handle := h2 + 1 }
        let (s3, es) := disconnect s2
        (s3, Effect.sockOpen h1 :: Effect.sockOpen h2 :: es)
    | ConnectOutcome.success =>
        let h2 := s1.next_handle
        let s2 := { s1 with udp_sock := some h2, next_handle := h2 + 1 }
        match send_json_message s2 "SYNC" [] true with
        | Except.ok handshakeEffects =>
            let s3 := { s2 with is_running := true }
            (s3, Effect.sockOpen h1 :: Effect.sockOpen h2 :: handshakeEffects)
        | Except.error _ =>
            let (s3, es) := disconnect s2
            (s3, Effect.sockOpen h1 :: Effect.sockOpen h2 :: es)

/-- Embedding of `SrsServerClient.send_voice_packet`.  The guard
no-ops when not running or without a UDP socket; otherwise the packet id
is incremented first, then the packet is framed and sent.  `sendOk`
is the outcome of the external `sendto`; any exception (including a
`struct.error` from a packet id outside 64 bits) is caught and answered
by `disconnect()`. -/
def send_voice_packet (s : SrsState) (opus : List Nat) (sendOk : Bool) :
    SrsState × List Effect :=
  if !s.is_running || s.udp_sock.isNone then (s, [])
  else
    let s1 := { s with voice_packet_id := s.voice_packet_id + 1 }
    match structPackQ s1.voice_packet_id with
    | none => disconnect s1
    | some seqBytes =>
        let packet := seqBytes ++ strToUTF8 s1.client_guid ++ [0] ++ opus
        if sendOk then (s1, [Effect.udpSend packet])
        else disconnect s1

/-- A run of `send_voice_packet` calls: each entry is the opus payload
together with the outcome of its `sendto`. -/
def runVoice : SrsState → List (List Nat × Bool) → SrsState × List Effect
  | s, [] => (s, [])
  | s, (opus, ok) :: rest =>
      let (s1, e1) := send_voice_packet s opus ok
      let (s2, e2) := runVoice s1 rest
      (s2, e1 ++ e2)

/-- The `client_data` dict built inside `SrsServerClient.send_radio_update`. -/
def radioEntry (channel : Int) (name : String) : Json :=
  Json.obj
    [("channel", Json.int channel),
     ("freq", Json.int 0),
     ("secFreq", Json.int 0),
     ("retransmit", Json.bool false),
     ("volume", Json.float 1 0),
     ("modulation", Json.int 0),
     ("name", Json.str name)]

/-- The `GameState` record of a radio update, with the two radios, as
written in the source. -/
def radioUpdateClientData (radio1_channel radio2_channel : Int) :
    List (String × Json) :=
  [("GameState", Json.obj
    [("radios", Json.arr
      [radioEntry radio1_channel "Radio 1",
       radioEntry radio2_channel "Radio 2"]),
     ("control", Json.int 0),
     ("onboard", Json.bool false),
     ("ptt", Json.bool false)])]

/-- Embedding of `SrsServerClient.send_radio_update`: guard, then one
JSON message of type RADIO_UPDATE; an exception from the send is caught
and answered by `disconnect()`. -/
def send_radio_update (s : SrsState) (radio1_channel radio2_channel : Int)
    (sendOk : Bool) : SrsState × List Effect :=
  if !s.is_running || s.tcp_sock.isNone then (s, [])
  else
    match send_json_message s "RADIO_UPDATE"
        (radioUpdateClientData radio1_channel radio2_channel) sendOk with
    | Except.ok es => (s, es)
    | Except.error _ => disconnect s

/-- Embedding of `SrsServerClient._send_ping`: one JSON message of type
PING.  The PING early return in `_send_json_message` fires before any
socket call, so no send outcome is involved. -/
def send_ping (s : SrsState) : Except Unit (List Effect) :=
  send_json_message s "PING" [] true

/-- One iteration of `SrsServerClient._ping_loop` while the loop is
live: `_send_ping()` inside `try`, with any exception breaking the loop
without touching state. -/
def ping_loop_iteration (s : SrsState) : SrsState × List Effect :=
  if s.is_running then
    match send_ping s with
    | Except.ok es => (s, es)
    | Except.error _ => (s, [])
  else (s, [])

/-- Events observable from the UDP receive loop: the only action the
loop takes on a datagram is invoking `received_audio_callback` with a
`ReceivedVoice(audio_payload, sender_guid=None)`. -/
inductive UdpEvent where
  | callbackInvoked (audio_payload : List Nat) (sender_guid : Option String)
deriving Repr, DecidableEq

/-- Body of one `_udp_receive_loop` iteration after `recvfrom` returned
`data`: the callback is invoked only when the datagram is nonempty
(Python's `if data:`); the client state is untouched either way. -/
def udp_receive_step (s : SrsState) (data : List Nat) : SrsState × List UdpEvent :=
  if data ≠ [] then (s, [UdpEvent.callbackInvoked data none])
  else (s, [])

/-- Decode outcome of an inbound voice datagram, as implemented by the
`if data:` guard of `_udp_receive_loop`: empty means malformed/dropped,
anything else is the payload unchanged (identity, no envelope). -/
inductive VoiceDecodeOutcome where
  | malformedPacket
  | payload (bytes : List Nat)
deriving Repr, DecidableEq

/-- Inbound voice decode (see `VoiceDecodeOutcome`). -/
def decodeVoiceDatagram (data : List Nat) : VoiceDecodeOutcome :=
  if data ≠ [] then VoiceDecodeOutcome.payload data
  else VoiceDecodeOutcome.malformedPacket

/-- Events observable from the TCP receive loop's line processing. -/
inductive TcpEvent where
  | received (message : Json)
  | decodeError (error : String)
deriving Repr

/-- Splitting of the receive buffer into newline-terminated complete
lines plus the unterminated remainder — the
`while b'\n' in buffer: packet_data, buffer = buffer.split(b'\n', 1)`
loop of `_tcp_receive_loop`. -/
def splitLines : List Nat → List (List Nat) × List Nat
  | [] => ([], [])
  | b :: rest =>
      if b = 10 then
        let (ls, rem) := splitLines rest
        ([] :: ls, rem)
      else
        let (ls, rem) := splitLines rest
        match ls with
        | [] => ([], b :: rem)
        | l :: ls2 => ((b :: l) :: ls2, rem)

/-- Per-line handling of `_tcp_receive_loop`: empty lines are skipped;
otherwise the line goes through `json.loads(line.decode('utf-8'))`
(external, passed as `jsonLoads`); a decode failure is caught, logged as
a `decodeError` event, and the loop moves on to the next line. -/
def lineEvents (jsonLoads : List Nat → Except String Json)
    (lines : List (List Nat)) : List TcpEvent :=
  lines.filterMap fun l =>
    if l = [] then none
    else some (match jsonLoads l with
      | Except.ok m => TcpEvent.received m
      | Except.error e => TcpEvent.decodeError e)

/-- One iteration of `_tcp_receive_loop` after `recv` returned `data`
with the current buffer: an empty read means the server closed the
connection, ending the loop and clearing `is_running`; otherwise the
buffer is extended and every complete line is processed. -/
def tcp_receive_step (jsonLoads : List Nat → Except String Json)
    (s : SrsState) (buffer data : List Nat) :
    SrsState × List TcpEvent × List Nat :=
  if data = [] then ({ s with is_running := false }, [], buffer)
  else
    let (lines, rem) := splitLines (buffer ++ data)
    (s, lineEvents jsonLoads lines, rem)

/-- Clamp to the normalized amplitude range, `np.clip(x, -1.0, 1.0)`. -/
def clipQ (x : ℚ) : ℚ := max (-1) (min 1 x)

/-- Truncation toward zero, the behaviour of `.astype(np.int16)` on an
in-range value. -/
def ratTrunc (x : ℚ) : Int := if 0 ≤ x then ⌊x⌋ else ⌈x⌉

/-- The gain stage of `AudioManager.play_audio` on one 16-bit sample:
normalize by 32768, multiply by the boost factor `g` (the value of
`10 ** (speaker_boost_db / 20)`, modelled as an arbitrary rational),
hard-clip to [-1, 1], scale by 32767 and convert back to integer.  The
floating-point arithmetic is modelled exactly over ℚ; clipping and the
monotone final scaling make the range bound insensitive to rounding. -/
def gainSample (g : ℚ) (sample : Int) : Int :=
  ratTrunc (clipQ ((sample : ℚ) / 32768 * g) * 32767)

/-- The gain stage applied to a whole decoded PCM frame. -/
def applyGainStage (g : ℚ) (frame : List Int) : List Int :=
  frame.map (gainSample g)

/-- Lookup along a path of object keys. -/
def jPath (j : Json) (path : List String) : Option Json :=
  path.foldl (fun acc k => acc.bind (fun x => jGet x k)) (some j)

/-- A connected client used to instantiate the theorems below. -/
def sampleState : SrsState :=
  { server_address := "192.0.2.10"
    server_port := 5002
    pilot_name := "TestPilot"
    client_guid := "12345678-1234-1234-1234-123456789abc"
    tcp_sock := some 0
    udp_sock := some 1
    voice_packet_id := 0
    is_running := true
    next_handle := 2 }

lemma disconnect_voice_id (s : SrsState) :
    (disconnect s).1.voice_packet_id = s.voice_packet_id := by
  unfold disconnect
  split <;> rfl

lemma disconnect_guid (s : SrsState) :
    (disconnect s).1.client_guid = s.client_guid := by
  unfold disconnect
  split <;> rfl

lemma send_voice_packet_id (s : SrsState) (opus : List Nat) (sendOk : Bool) :
    (send_voice_packet s opus sendOk).1.voice_packet_id =
      if !s.is_running || s.udp_sock.isNone then s.voice_packet_id
      else s.voice_packet_id + 1 := by
  by_cases hg : (!s.is_running || s.udp_sock.isNone) = true
  · simp [send_voice_packet, hg]
  · simp only [Bool.not_eq_true] at hg
    simp only [send_voice_packet, hg, Bool.false_eq_true, if_false, if_neg]
    cases hpk : structPackQ (s.voice_packet_id + 1) with
    | none => simp [disconnect_voice_id]
    | some sb => cases sendOk <;> simp [disconnect_voice_id]

lemma runVoice_id_mono (calls : List (List Nat × Bool)) (s : SrsState) :
    s.voice_packet_id ≤ (runVoice s calls).1.voice_packet_id := by
  induction calls generalizing s with
  | nil => exact Nat.le_refl _
  | cons c rest ih =>
      obtain ⟨opus, ok⟩ := c
      have h1 : s.voice_packet_id ≤ (send_voice_packet s opus ok).1.voice_packet_id := by
        rw [send_voice_packet_id]
        split <;> omega
      calc s.voice_packet_id
          ≤ (send_voice_packet s opus ok).1.voice_packet_id := h1
        _ ≤ (runVoice (send_voice_packet s opus ok).1 rest).1.voice_packet_id := ih _
        _ = (runVoice s ((opus, ok) :: rest)).1.voice_packet_id := by
            simp [runVoice]

/-- C10: calling connect() while the client is already running
(is_running true) is a complete no-op — it returns immediately with the
state unchanged and no effect (no socket opened, no message sent, no
field modified), for every outcome of the external socket calls. -/
theorem connect_noop_when_running (s : SrsState) (oc : ConnectOutcome)
    (h : s.is_running = true) : connect s oc = (s, []) := by
  simp [connect, h]

theorem connect_noop_when_running_witness :
    connect sampleState ConnectOutcome.success = (sampleState, []) :=
  connect_noop_when_running sampleState ConnectOutcome.success rfl

/-- C4: while running, an empty UDP datagram is a MalformedPacket decode
outcome, and the iteration of the UDP receive loop that read it leaves
the client state unchanged and does not invoke the received-audio
callback (hence no playback/device action for that datagram). -/
theorem empty_datagram_no_callback (s : SrsState) (h : s.is_running = true) :
    decodeVoiceDatagram [] = VoiceDecodeOutcome.malformedPacket ∧
    udp_receive_step s [] = (s, []) := by
  constructor
  · rfl
  · simp [udp_receive_step]

theorem empty_datagram_no_callback_witness :
    decodeVoiceDatagram [] = VoiceDecodeOutcome.malformedPacket ∧
    udp_receive_step sampleState [] = (sampleState, []) :=
  empty_datagram_no_callback sampleState rfl

/-- C6: an iteration of the ping loop while running writes zero bytes
and modifies no client state; the control-message encoder in PING mode
produces no effect at all, and an encoder invocation that does carry
bytes is never a PING. -/
theorem ping_is_wire_noop (s : SrsState) (h : s.is_running = true) :
    ping_loop_iteration s = (s, []) ∧
    (∀ client_data sendOk, send_json_message s "PING" client_data sendOk = Except.ok []) ∧
    (∀ msg_type client_data sendOk es,
      send_json_message s msg_type client_data sendOk = Except.ok es →
      es ≠ [] → msg_type ≠ "PING") := by
  have hping : ∀ client_data sendOk,
      send_json_message s "PING" client_data sendOk = Except.ok [] := by
    intro cd ok
    cases htcp : s.tcp_sock <;> simp [send_json_message, h, htcp]
  refine ⟨?_, hping, ?_⟩
  · simp [ping_loop_iteration, send_ping, h, hping [] true]
  · intro mt cd ok es hok hne hmt
    subst hmt
    rw [hping cd ok] at hok
    cases hok
    exact hne rfl

theorem ping_is_wire_noop_witness :
    ping_loop_iteration sampleState = (sampleState, []) ∧
    (∀ client_data sendOk,
      send_json_message sampleState "PING" client_data sendOk = Except.ok []) ∧
    (∀ msg_type client_data sendOk es,
      send_json_message sampleState msg_type client_data sendOk = Except.ok es →
      es ≠ [] → msg_type ≠ "PING") :=
  ping_is_wire_noop sampleState rfl

/-- C2: while connected (running with a UDP socket), every call to
send_voice_packet increments voice_packet_id by exactly 1, whatever the
outcome of the UDP send; the counter never decreases on any call, and
over any run of calls it never decreases — so across a connected run it
is strictly increasing and never reused. -/
theorem voice_sequence_strictly_increasing (s : SrsState) (opus : List Nat)
    (sendOk : Bool) :
    (s.is_running = true → s.udp_sock.isSome = true →
      (send_voice_packet s opus sendOk).1.voice_packet_id = s.voice_packet_id + 1) ∧
    s.voice_packet_id ≤ (send_voice_packet s opus sendOk).1.voice_packet_id ∧
    (∀ calls, s.voice_packet_id ≤ (runVoice s calls).1.voice_packet_id) := by
  refine ⟨?_, ?_, fun calls => runVoice_id_mono calls s⟩
  · intro h1 h2
    rw [send_voice_packet_id]
    simp [h1, Option.isNone_iff_eq_none]
    intro hnone
    rw [hnone] at h2
    cases h2
  · rw [send_voice_packet_id]
    split <;> omega

theorem voice_sequence_strictly_increasing_witness :
    (send_voice_packet sampleState [7, 42] false).1.voice_packet_id =
      sampleState.voice_packet_id + 1 :=
  (voice_sequence_strictly_increasing sampleState [7, 42] false).1 rfl rfl

/-- C1: evaluation of connect() at the failing input — a fresh client
whose TCP connect raises (unreachable host).  The client does end
Disconnected (is_running false), but the socket opened for the attempt
is never closed: the except-handler calls disconnect(), which returns
early because is_running is still False, so tcp_sock stays assigned and
no sockClose effect is ever emitted — a descriptor leak, contradicting
the claim that all partially-opened sockets are closed. -/
theorem connect_socket_error_leaks_descriptors :
    (connect (SrsState.init "198.51.100.7" 5002 "TestPilot"
        "deadbeef-0000-4000-8000-000000000001") ConnectOutcome.tcpConnectFail).1.is_running
        = false ∧
    (connect (SrsState.init "198.51.100.7" 5002 "TestPilot"
        "deadbeef-0000-4000-8000-000000000001") ConnectOutcome.tcpConnectFail).1.tcp_sock
        = some 0 ∧
    (connect (SrsState.init "198.51.100.7" 5002 "TestPilot"
        "deadbeef-0000-4000-8000-000000000001") ConnectOutcome.tcpConnectFail).2
        = [Effect.sockOpen 0] := by
  refine ⟨rfl, rfl, rfl⟩

/-- C5 counterexample: on a concrete client, connect — disconnect —
connect establishes two sessions (is_running true in both) and the
second session's client identifier equals the first's: the claim that a
later connect() carries a fresh, different identifier is false.
`uuid.uuid4()` runs only in `__init__`; connect() never regenerates the
GUID. -/
theorem guid_reuse_counterexample :
    ((connect (SrsState.init "192.0.2.5" 5002 "Pilot"
        "11111111-2222-4333-8444-555555555555") ConnectOutcome.success).1.is_running
        = true) ∧
    ((connect ((disconnect ((connect (SrsState.init "192.0.2.5" 5002 "Pilot"
        "11111111-2222-4333-8444-555555555555") ConnectOutcome.success).1)).1)
        ConnectOutcome.success).1.is_running = true) ∧
    ((connect ((disconnect ((connect (SrsState.init "192.0.2.5" 5002 "Pilot"
        "11111111-2222-4333-8444-555555555555") ConnectOutcome.success).1)).1)
        ConnectOutcome.success).1.client_guid =
      ((connect (SrsState.init "192.0.2.5" 5002 "Pilot"
        "11111111-2222-4333-8444-555555555555") ConnectOutcome.success).1.client_guid)) := by
  refine ⟨rfl, rfl, rfl⟩

/-- C5 amended: across reconnects the sockets are fresh (a successful
connect() from a non-running state assigns two newly allocated socket
handles and advances the allocator), but the client identifier is
generated once at construction and is reused unchanged by every
connect() and disconnect(). -/
theorem guid_stable_and_sockets_fresh (s : SrsState) (oc : ConnectOutcome) :
    (connect s oc).1.client_guid = s.client_guid ∧
    (disconnect s).1.client_guid = s.client_guid ∧
    (s.is_running = false →
      (connect s ConnectOutcome.success).1.tcp_sock = some s.next_handle ∧
      (connect s ConnectOutcome.success).1.udp_sock = some (s.next_handle + 1) ∧
      (connect s ConnectOutcome.success).1.next_handle = s.next_handle + 2) := by
  refine ⟨?_, disconnect_guid s, ?_⟩
  · by_cases h : s.is_running = true
    · simp [connect, h]
    · simp only [Bool.not_eq_true] at h
      cases oc <;> simp [connect, h, send_json_message, disconnect_guid]
  · intro h
    simp [connect, h, send_json_message]

theorem guid_stable_and_sockets_fresh_witness :
    ((connect (SrsState.init "192.0.2.5" 5002 "Pilot"
        "11111111-2222-4333-8444-000000000000") ConnectOutcome.udpBindFail).1.client_guid =
      (SrsState.init "192.0.2.5" 5002 "Pilot"
        "11111111-2222-4333-8444-000000000000").client_guid) ∧
    ((connect (SrsState.init "192.0.2.5" 5002 "Pilot"
        "11111111-2222-4333-8444-000000000000")
        ConnectOutcome.success).1.tcp_sock = some (SrsState.init "192.0.2.5" 5002 "Pilot"
        "11111111-2222-4333-8444-000000000000").next_handle) :=
  ⟨(guid_stable_and_sockets_fresh (SrsState.init "192.0.2.5" 5002 "Pilot"
      "11111111-2222-4333-8444-000000000000") ConnectOutcome.udpBindFail).1,
   ((guid_stable_and_sockets_fresh (SrsState.init "192.0.2.5" 5002 "Pilot"
      "11111111-2222-4333-8444-000000000000") ConnectOutcome.udpBindFail).2.2 rfl).1⟩

lemma unpack_pack64le (n : Nat) (h : n < 18446744073709551616) :
    unpack64le (pack64le n) = n := by
  simp only [pack64le, unpack64le]
  omega

lemma takeUntilNul_append (g p : List Nat) (hg : 0 ∉ g) :
    takeUntilNul (g ++ 0 :: p) = (g, p) := by
  induction g with
  | nil => simp [takeUntilNul]
  | cons b bs ih =>
      have hb : b ≠ 0 := fun e => hg (e ▸ List.mem_cons_self b bs)
      have hbs : 0 ∉ bs := fun m => hg (List.mem_cons_of_mem b m)
      simp [takeUntilNul, hb, ih hbs]

/-- C3: while connected, a send_voice_packet whose UDP send succeeds
emits exactly one datagram, consisting of the 8-byte little-endian
incremented sequence number, the UTF-8 client GUID, one NUL byte, and
the compressed payload unchanged with no length prefix: parsing the
datagram back with the server-side conventions recovers each part, and
its length is exactly the sum of the parts. -/
theorem voice_packet_wire_format (s : SrsState) (opus : List Nat)
    (h1 : s.is_running = true) (h2 : s.udp_sock.isSome = true)
    (h3 : s.voice_packet_id + 1 < 18446744073709551616)
    (h4 : 0 ∉ strToUTF8 s.client_guid) :
    ∃ d, (send_voice_packet s opus true).2 = [Effect.udpSend d] ∧
      d.length = 8 + (strToUTF8 s.client_guid).length + 1 + opus.length ∧
      unpack64le (d.take 8) = s.voice_packet_id + 1 ∧
      takeUntilNul (d.drop 8) = (strToUTF8 s.client_guid, opus) := by
  have hnone : s.udp_sock.isNone = false := by
    cases hu : s.udp_sock with
    | none => rw [hu] at h2; cases h2
    | some u => rfl
  have hpk : structPackQ (s.voice_packet_id + 1) = some (pack64le (s.voice_packet_id + 1)) := by
    simp [structPackQ, h3]
  refine ⟨pack64le (s.voice_packet_id + 1) ++
    (strToUTF8 s.client_guid ++ (0 :: opus)), ?_, ?_, ?_, ?_⟩
  · simp [send_voice_packet, h1, hnone, hpk]
  · simp [pack64le]
    omega
  · have hlen : (pack64le (s.voice_packet_id + 1)).length = 8 := by simp [pack64le]
    rw [List.take_left' hlen]
    exact unpack_pack64le _ h3
  · have hlen : (pack64le (s.voice_packet_id + 1)).length = 8 := by simp [pack64le]
    rw [List.drop_left' hlen]
    exact takeUntilNul_append _ _ h4

theorem voice_packet_wire_format_witness :
    ∃ d, (send_voice_packet sampleState [9, 8, 7] true).2 = [Effect.udpSend d] ∧
      d.length = 8 + (strToUTF8 sampleState.client_guid).length + 1 + 3 ∧
      unpack64le (d.take 8) = sampleState.voice_packet_id + 1 ∧
      takeUntilNul (d.drop 8) = (strToUTF8 sampleState.client_guid, [9, 8, 7]) :=
  voice_packet_wire_format sampleState [9, 8, 7] rfl rfl (by decide) (by decide)

/-- C7: while connected, send_radio_update performs exactly one TCP
write — the UTF-8 bytes of one newline-terminated JSON object — whose
object carries MsgType "RADIO_UPDATE", ServerType "IL2-SRS", Version
"1.0.0.0", a Client record with the client GUID, pilot name, Coalition
0 and Seat 0, and a GameState.radios array of length 2 whose channel
fields are the two requested channels; the client state is unchanged. -/
theorem radio_update_single_write (s : SrsState) (r1 r2 : Int)
    (h1 : s.is_running = true) (h2 : s.tcp_sock.isSome = true) :
    ∃ msg, send_radio_update s r1 r2 true =
        (s, [Effect.tcpWrite (strToUTF8 (dumps msg ++ "\n"))]) ∧
      jGet msg "MsgType" = some (Json.str "RADIO_UPDATE") ∧
      jGet msg "ServerType" = some (Json.str "IL2-SRS") ∧
      jGet msg "Version" = some (Json.str "1.0.0.0") ∧
      jPath msg ["Client", "ClientGuid"] = some (Json.str s.client_guid) ∧
      jPath msg ["Client", "Name"] = some (Json.str s.pilot_name) ∧
      jPath msg ["Client", "Coalition"] = some (Json.int 0) ∧
      jPath msg ["Client", "Seat"] = some (Json.int 0) ∧
      ∃ radios, jPath msg ["Client", "GameState", "radios"] = some (Json.arr radios) ∧
        radios.length = 2 ∧
        radios.head?.bind (fun r => jGet r "channel") = some (Json.int r1) ∧
        (radios.drop 1).head?.bind (fun r => jGet r "channel") = some (Json.int r2) := by
  have hnone : s.tcp_sock.isNone = false := by
    cases ht : s.tcp_sock with
    | none => rw [ht] at h2; cases h2
    | some t => rfl
  refine ⟨buildJsonMessage s "RADIO_UPDATE" (radioUpdateClientData r1 r2),
    ?_, rfl, rfl, rfl, rfl, rfl, rfl, rfl,
    [radioEntry r1 "Radio 1", radioEntry r2 "Radio 2"], rfl, rfl, rfl, rfl⟩
  simp [send_radio_update, send_json_message, h1, hnone]

theorem radio_update_single_write_witness :
    ∃ msg, send_radio_update sampleState 3 7 true =
        (sampleState, [Effect.tcpWrite (strToUTF8 (dumps msg ++ "\n"))]) ∧
      jGet msg "MsgType" = some (Json.str "RADIO_UPDATE") ∧
      jGet msg "ServerType" = some (Json.str "IL2-SRS") ∧
      jGet msg "Version" = some (Json.str "1.0.0.0") ∧
      jPath msg ["Client", "ClientGuid"] = some (Json.str sampleState.client_guid) ∧
      jPath msg ["Client", "Name"] = some (Json.str sampleState.pilot_name) ∧
      jPath msg ["Client", "Coalition"] = some (Json.int 0) ∧
      jPath msg ["Client", "Seat"] = some (Json.int 0) ∧
      ∃ radios, jPath msg ["Client", "GameState", "radios"] = some (Json.arr radios) ∧
        radios.length = 2 ∧
        radios.head?.bind (fun r => jGet r "channel") = some (Json.int 3) ∧
        (radios.drop 1).head?.bind (fun r => jGet r "channel") = some (Json.int 7) :=
  radio_update_single_write sampleState 3 7 rfl rfl

lemma splitLines_append (bad rest : List Nat) (h : 10 ∉ bad) :
    splitLines (bad ++ 10 :: rest) =
      (bad :: (splitLines rest).1, (splitLines rest).2) := by
  induction bad with
  | nil => simp [splitLines]
  | cons b bs ih =>
      have hb : b ≠ 10 := fun e => h (e ▸ List.mem_cons_self b bs)
      have hbs : 10 ∉ bs := fun m => h (List.mem_cons_of_mem b m)
      simp [splitLines, hb, ih hbs]

/-- C8: one complete line on the TCP control channel that fails JSON or
UTF-8 decoding (any behaviour of the external `json.loads` composite is
allowed, passed as `jsonLoads`) yields a logged decodeError event and is
discarded, while the same iteration still processes every following
complete line exactly as it would have alone; the state — in particular
is_running — is untouched and no exception escapes (the step is a total
function). -/
theorem bad_line_dropped_loop_continues
    (jsonLoads : List Nat → Except String Json) (s : SrsState)
    (bad rest : List Nat) (e : String)
    (hnl : 10 ∉ bad) (hne : bad ≠ []) (hdec : jsonLoads bad = Except.error e) :
    tcp_receive_step jsonLoads s [] (bad ++ 10 :: rest) =
      (s, TcpEvent.decodeError e :: lineEvents jsonLoads (splitLines rest).1,
        (splitLines rest).2) := by
  have hdata : bad ++ 10 :: rest ≠ [] := by simp
  simp only [tcp_receive_step, hdata, if_neg, List.nil_append,
    splitLines_append bad rest hnl]
  simp [lineEvents, hne, hdec]

/-- A concrete stand-in for `json.loads ∘ decode` that rejects every
line, used to instantiate the recovery theorem. -/
def jsonLoadsReject : List Nat → Except String Json :=
  fun _ => Except.error "Expecting value: line 1 column 1 (char 0)"

theorem bad_line_dropped_loop_continues_witness :
    tcp_receive_step jsonLoadsReject sampleState []
        (strToUTF8 "not json" ++ 10 :: strToUTF8 "rest") =
      (sampleState,
        TcpEvent.decodeError "Expecting value: line 1 column 1 (char 0)" ::
          lineEvents jsonLoadsReject (splitLines (strToUTF8 "rest")).1,
        (splitLines (strToUTF8 "rest")).2) :=
  bad_line_dropped_loop_continues jsonLoadsReject sampleState
    (strToUTF8 "not json") (strToUTF8 "rest") _ (by decide) (by decide) rfl

lemma clipQ_bounds (x : ℚ) : -1 ≤ clipQ x ∧ clipQ x ≤ 1 :=
  ⟨le_max_left _ _, max_le (by norm_num) (min_le_left _ _)⟩

lemma gainSample_bounds (g : ℚ) (sample : Int) :
    -32768 ≤ gainSample g sample ∧ gainSample g sample ≤ 32767 := by
  set t : ℚ := clipQ ((sample : ℚ) / 32768 * g) * 32767 with ht
  have hc := clipQ_bounds ((sample : ℚ) / 32768 * g)
  have hub : t ≤ 32767 := by rw [ht]; nlinarith [hc.1, hc.2]
  have hlb : -32767 ≤ t := by rw [ht]; nlinarith [hc.1, hc.2]
  unfold gainSample
  rw [← ht]
  unfold ratTrunc
  split
  · rename_i hpos
    constructor
    · have : (0 : Int) ≤ ⌊t⌋ := Int.floor_nonneg.mpr hpos
      omega
    · have h1 : ⌊t⌋ ≤ ⌊(32767 : ℚ)⌋ := Int.floor_le_floor hub
      have h2 : ⌊(32767 : ℚ)⌋ = 32767 := by norm_num
      omega
  · rename_i hneg
    push_neg at hneg
    constructor
    · have h1 : ((-32767 : Int) : ℚ) ≤ t := by exact_mod_cast hlb
      have h2 : (-32767 : Int) ≤ ⌈t⌉ := le_trans (le_of_eq (Int.ceil_intCast _).symm)
        (Int.ceil_le_ceil h1)
      omega
    · have : ⌈t⌉ ≤ (0 : Int) := Int.ceil_le.mpr (by exact_mod_cast le_of_lt hneg)
      omega

/-- C9: for every decoded PCM frame of 16-bit samples and every boost
factor g = 10^(boostDb/20) (any rational), every sample produced by the
gain stage of play_audio lies in the signed 16-bit range — no
wraparound in the astype(int16) conversion — and the clipped amplitude
times 32767 never exceeds 32767 in magnitude. -/
theorem gain_stage_output_in_int16_range (g : ℚ) (frame : List Int) :
    (∀ y ∈ applyGainStage g frame, -32768 ≤ y ∧ y ≤ 32767) ∧
    (∀ x : ℚ, |clipQ x * 32767| ≤ 32767) := by
  constructor
  · intro y hy
    obtain ⟨x, _, hx⟩ := List.mem_map.mp hy
    exact hx ▸ gainSample_bounds g x
  · intro x
    have hc := clipQ_bounds x
    rw [abs_le]
    constructor <;> nlinarith [hc.1, hc.2]

theorem gain_stage_output_in_int16_range_witness :
    -32768 ≤ gainSample 100 32767 ∧ gainSample 100 32767 ≤ 32767 :=
  (gain_stage_output_in_int16_range 100 [32767]).1 (gainSample 100 32767)
    (List.mem_singleton.mpr rfl)
